import Mathlib

/-!
Verification of the pool/task-lifecycle manager of the `multitasking`
library (`multitasking/__init__.py`).

The library keeps a single process-wide mutable dictionary `config`; we
embed it as a `Config` structure threaded explicitly through every
operation.  Python `dict` fields become association lists with the usual
insert-or-overwrite update, Python `int` becomes `Int`, a `Semaphore(n)`
is recorded by its initial count, and a `Thread`/`Process` handle is
recorded by its spawn index in the `TASKS` list.  Fallible lookups
(`dict.__getitem__`) return `Except PyErr`.
-/

/-- The two engine classes stored in a pool entry
(`Thread` or `Process`, `__init__.py` line 205). -/
inductive EngineClass where
  | thread
  | process
deriving DecidableEq

/-- One entry of `config["POOLS"]` (the `PoolConfig` TypedDict, lines 36-46).
`pool` is the semaphore, recorded by its initial count (`Semaphore(threads)`
when `threads > 0`, else `None`). -/
structure PoolConfig where
  pool : Option Int
  engine : EngineClass
  name : String
  threads : Int
deriving DecidableEq

/-- The snapshot returned by `getPool` (lines 148-152). -/
structure PoolInfo where
  engine : String
  name : String
  threads : Int
deriving DecidableEq

/-- Python exceptions surfaced by the library: a failed dictionary
subscript raises `KeyError(key)`. -/
inductive PyErr where
  | keyError (key : String)
deriving DecidableEq

/-- The global `config` dictionary (the `Config` TypedDict, lines 49-75).
`TASKS` holds spawn indices standing for the `Thread`/`Process` objects,
in append order. -/
structure Config where
  CPU_CORES : Nat
  ENGINE : String
  MAX_THREADS : Int
  KILL_RECEIVED : Bool
  TASKS : List Nat
  POOLS : List (String × PoolConfig)
  POOL_NAME : String
deriving DecidableEq

/-- The initial value of `config` (lines 67-75), parametrised by the
detected `cpu_count()`.  Note the initial active-pool name is `"Main"`
with a capital M. -/
def initConfig (cpu : Nat) : Config :=
  { CPU_CORES := cpu
    ENGINE := "thread"
    MAX_THREADS := (cpu : Int)
    KILL_RECEIVED := false
    TASKS := []
    POOLS := []
    POOL_NAME := "Main" }

/-- Does the character list begin with the given pattern list? -/
def charsStartWith : List Char → List Char → Bool
  | _, [] => true
  | [], _ :: _ => false
  | c :: cs, d :: ds => c == d && charsStartWith cs ds

/-- Does the character list contain the pattern list as a contiguous run?
Embeds Python's `needle in haystack` on strings. -/
def charsContain : List Char → List Char → Bool
  | [], needle => needle.isEmpty
  | c :: cs, needle => charsStartWith (c :: cs) needle || charsContain cs needle

/-- Embeds `"process" in s.lower()` (used at lines 115 and 205). -/
def containsProcess (s : String) : Bool :=
  charsContain (s.toList.map Char.toLower) "process".toList

/-- A `dict` lookup on the pool registry: `config["POOLS"][k]`. -/
def lookupPool : List (String × PoolConfig) → String → Option PoolConfig
  | [], _ => none
  | (k', v') :: rest, k => if k' = k then some v' else lookupPool rest k

/-- A `dict` insert-or-overwrite on the pool registry:
`config["POOLS"][k] = v`. -/
def insertPool : List (String × PoolConfig) → String → PoolConfig → List (String × PoolConfig)
  | [], k, v => [(k, v)]
  | (k', v') :: rest, k, v =>
      if k' = k then (k, v) :: rest else (k', v') :: insertPool rest k v

/-- Embeds `set_max_threads` (lines 78-97): an explicit count overwrites the
global default, `None` resets it to `cpu_count()`. -/
def set_max_threads (threads : Option Int) (cfg : Config) : Config :=
  match threads with
  | some t => { cfg with MAX_THREADS := t }
  | none => { cfg with MAX_THREADS := (cfg.CPU_CORES : Int) }

/-- Embeds `set_engine` (lines 100-120): `"process"` as a substring of the
lowered argument selects the process engine, anything else threads. -/
def set_engine (kind : String) (cfg : Config) : Config :=
  if containsProcess kind then { cfg with ENGINE := "process" }
  else { cfg with ENGINE := "thread" }

/-- Embeds `getPool` (lines 123-152).  The name argument defaults to the active
pool name; the subscripts at lines 144 and 151 read the entry of
`config["POOL_NAME"]` (the active pool), raising `KeyError` when the
active name is not a key. -/
def getPool (name : Option String) (cfg : Config) : Except PyErr PoolInfo :=
  let n := match name with
    | none => cfg.POOL_NAME
    | some s => s
  match lookupPool cfg.POOLS cfg.POOL_NAME with
  | none => .error (.keyError cfg.POOL_NAME)
  | some p =>
      let engine := if p.engine = EngineClass.process then "process" else "thread"
      .ok { engine := engine, name := n, threads := p.threads }

/-- The `threads` argument of `createPool`: `given n` stands for any
value `int()` converts to `n`, `nonNumeric` for a value on which `int()`
raises `ValueError`/`TypeError`, `missing` for `None`. -/
inductive ThreadsArg where
  | given (n : Int)
  | nonNumeric
  | missing
deriving DecidableEq

/-- Embeds `createPool` (lines 155-208): switch the active pool name, parse the
thread count (falling back to `MAX_THREADS` on `None` or a conversion
error), normalize counts below 2 to 0, default the engine string, copy
both back into the global defaults, and store the new pool entry with a
semaphore of the normalized count when it is positive. -/
def createPool (name : String) (threadsArg : ThreadsArg) (engineArg : Option String)
    (cfg : Config) : Config :=
  let cfg1 := { cfg with POOL_NAME := name }
  let threads : Int := match threadsArg with
    | .given n => n
    | .nonNumeric => cfg1.MAX_THREADS
    | .missing => cfg1.MAX_THREADS
  let threads := if threads < 2 then 0 else threads
  let engine := match engineArg with
    | some e => e
    | none => cfg1.ENGINE
  let cfg2 := { cfg1 with MAX_THREADS := threads, ENGINE := engine }
  { cfg2 with
      POOLS := insertPool cfg2.POOLS cfg2.POOL_NAME
        { pool := if threads > 0 then some threads else none
          engine := if containsProcess engine then .process else .thread
          name := name
          threads := threads } }

/-- The observable outcome of one call of a task-wrapped function
(`async_method`, lines 255-302): `handle` is the returned value (`some`
spawn index for a started unit, `none` for Python `None`), and
`syncCall` records whether `callee` ran synchronously in the caller's
frame (line 267). -/
structure CallResult where
  handle : Option Nat
  syncCall : Bool
deriving DecidableEq

/-- Embeds `async_method` (lines 255-302), the wrapped callable.  Looking up the
active pool (line 265) can raise `KeyError`; a capacity-0 pool runs the
callee synchronously and returns `None`; otherwise, unless
`KILL_RECEIVED` is set, a new unit is created, appended to `TASKS` and
started (the `daemon=False` try/except at lines 273-290 builds the same
unit either way); during shutdown `None` is returned with no state
change. -/
def async_method (cfg : Config) : Except PyErr CallResult × Config :=
  match lookupPool cfg.POOLS cfg.POOL_NAME with
  | none => (.error (.keyError cfg.POOL_NAME), cfg)
  | some p =>
      if p.threads = 0 then
        (.ok { handle := none, syncCall := true }, cfg)
      else if cfg.KILL_RECEIVED = false then
        (.ok { handle := some cfg.TASKS.length, syncCall := false },
          { cfg with TASKS := cfg.TASKS ++ [cfg.TASKS.length] })
      else
        (.ok { handle := none, syncCall := false }, cfg)

/-- The registration step of the `task` decorator itself (lines 234-236):
a default pool is created when none exists. -/
def taskDecorator (cfg : Config) : Config :=
  if cfg.POOLS.isEmpty then createPool "main" .missing none cfg else cfg

/-- Embeds `get_list_of_tasks` (lines 307-320): returns `config["TASKS"]`. -/
def get_list_of_tasks (cfg : Config) : List Nat :=
  cfg.TASKS

/-- Embeds `get_active_tasks` (lines 323-337), with liveness supplied as an
oracle on unit handles. -/
def get_active_tasks (alive : Nat → Bool) (cfg : Config) : List Nat :=
  cfg.TASKS.filter alive

/-- Result of the waiting loop of `wait_for_tasks`. -/
inductive DrainOutcome where
  | drained
  | fuelOut
deriving DecidableEq

/-- The `while True` loop of `wait_for_tasks` (lines 367-391).
`aliveAt round t` is the liveness of unit `t` observed after the join
pass of iteration `round`; the loop breaks when no unit is still alive
after a pass.  `fuel` bounds how many iterations we unroll: `fuelOut`
means the loop was still running after `fuel` passes. -/
def drainLoop (aliveAt : Nat → Nat → Bool) (tasks : List Nat) :
    Nat → Nat → DrainOutcome
  | 0, _ => .fuelOut
  | fuel + 1, round =>
      if (tasks.filter (fun t => aliveAt round t)).length = 0 then .drained
      else drainLoop aliveAt tasks fuel (round + 1)

/-- Embeds `wait_for_tasks` (lines 340-399).  Sets `KILL_RECEIVED`, reads the
active pool entry (line 362, `KeyError` when absent), returns `True`
immediately for a capacity-0 pool, otherwise drains the registry and
only then resets `KILL_RECEIVED` to `False` (line 398).  The result is
`none` while the loop is still running after `fuel` passes, otherwise
`some` of the raised error or returned boolean, paired with the final
state. -/
def wait_for_tasks (aliveAt : Nat → Nat → Bool) (fuel : Nat) (cfg : Config) :
    Option (Except PyErr Bool) × Config :=
  let cfg1 := { cfg with KILL_RECEIVED := true }
  match lookupPool cfg1.POOLS cfg1.POOL_NAME with
  | none => (some (.error (.keyError cfg1.POOL_NAME)), cfg1)
  | some p =>
      if p.threads = 0 then (some (.ok true), cfg1)
      else
        match drainLoop aliveAt cfg1.TASKS fuel 0 with
        | .drained => (some (.ok true), { cfg1 with KILL_RECEIVED := false })
        | .fuelOut => (none, cfg1)

/-- Embeds `killall` (lines 402-433): sets `KILL_RECEIVED` and then terminates
the process via `sys.exit`/`os._exit`; only the flag mutation is
observable state (line 433 is unreachable). -/
def killall (cfg : Config) : Config :=
  { cfg with KILL_RECEIVED := true }

/-- One invocation of a library entry point, for stating registry
invariants over arbitrary call sequences. -/
inductive Op where
  | setMaxThreads (t : Option Int)
  | setEngine (k : String)
  | getPoolOp (n : Option String)
  | createPoolOp (name : String) (t : ThreadsArg) (e : Option String)
  | decorate
  | call
  | listTasks
  | activeTasks (alive : Nat → Bool)
  | waitForTasks (aliveAt : Nat → Nat → Bool) (fuel : Nat)
  | killallOp

/-- The state transition performed by each entry point (read-only entry
points leave the state unchanged; `call` and `waitForTasks` keep the
state reached even when an exception propagates or fuel runs out). -/
def stepOp : Op → Config → Config
  | .setMaxThreads t, cfg => set_max_threads t cfg
  | .setEngine k, cfg => set_engine k cfg
  | .getPoolOp _, cfg => cfg
  | .createPoolOp n t e, cfg => createPool n t e cfg
  | .decorate, cfg => taskDecorator cfg
  | .call, cfg => (async_method cfg).2
  | .listTasks, cfg => cfg
  | .activeTasks _, cfg => cfg
  | .waitForTasks a f, cfg => (wait_for_tasks a f cfg).2
  | .killallOp, cfg => killall cfg

/-- Run a sequence of entry-point invocations from a starting state. -/
def runOps : List Op → Config → Config
  | [], cfg => cfg
  | op :: ops, cfg => runOps ops (stepOp op cfg)

/-- Lifecycle stage of one spawned unit running `_run_via_pool`
(lines 238-252) in a gated pool: `waiting` = started but blocked on the
semaphore acquire of `with pool:` (line 248), `running` = executing the
wrapped `callee` body, `doneOk`/`doneFault` = `callee` returned /
raised, with the `with` block's guaranteed release performed either
way. -/
inductive UnitStatus where
  | waiting
  | running
  | doneOk
  | doneFault
deriving DecidableEq

/-- Shared state of one gated pool: the semaphore's available count and
the lifecycle stage of every unit spawned into the pool so far. -/
structure SemState where
  sem : Nat
  units : List UnitStatus
deriving DecidableEq

/-- A fresh pool whose semaphore was built as `Semaphore(c)`
(line 203): count `c`, no units yet. -/
def SemState.init (c : Nat) : SemState :=
  { sem := c, units := [] }

/-- How many units are currently inside the wrapped function's body. -/
def runningCount : List UnitStatus → Nat
  | [] => 0
  | u :: rest => (if u = .running then 1 else 0) + runningCount rest

/-- Interleaved execution of `async_method` and `_run_via_pool` over one
gated pool.  `spawn`: `async_method` starts a new unit (`single.start()`,
line 296), which is never blocked.  `acquire`: a waiting unit enters
`with pool:` (line 248), possible only when the count is positive, and
decrements it.  `finishOk`/`finishFault`: the callee returns or raises;
in both cases the `with` block's exit releases the slot, incrementing
the count. -/
inductive SemStep : SemState → SemState → Prop
  | spawn (s : SemState) :
      SemStep s { sem := s.sem, units := s.units ++ [.waiting] }
  | acquire (s : SemState) (n : Nat) (pre post : List UnitStatus)
      (hn : s.sem = n + 1) (hu : s.units = pre ++ .waiting :: post) :
      SemStep s { sem := n, units := pre ++ .running :: post }
  | finishOk (s : SemState) (pre post : List UnitStatus)
      (hu : s.units = pre ++ .running :: post) :
      SemStep s { sem := s.sem + 1, units := pre ++ .doneOk :: post }
  | finishFault (s : SemState) (pre post : List UnitStatus)
      (hu : s.units = pre ++ .running :: post) :
      SemStep s { sem := s.sem + 1, units := pre ++ .doneFault :: post }

/-- States reachable from a fresh pool of capacity `c`. -/
def Reachable (c : Nat) (s : SemState) : Prop :=
  Relation.ReflTransGen SemStep (SemState.init c) s

/-- The string reported by `getPool` for each stored engine class
(lines 143-145). -/
def engineLabel : EngineClass → String
  | .process => "process"
  | .thread => "thread"

/-- A state with a single capacity-0 pool `"main"`, active. -/
def cfgZero : Config :=
  createPool "main" (.given 0) none (initConfig 4)

/-- A state with a capacity-0 thread pool `"a"` and a capacity-5 process
pool `"b"`; `"b"` is active. -/
def cfgTwo : Config :=
  createPool "b" (.given 5) (some "process") (createPool "a" (.given 0) none (initConfig 4))

/-- A state whose active pool `"q"` has capacity 5, with the shutdown
flag set (as during a drain). -/
def cfgShutdown : Config :=
  { createPool "q" (.given 5) none (initConfig 4) with KILL_RECEIVED := true }

theorem lookup_insert_self (ps : List (String × PoolConfig)) (k : String) (v : PoolConfig) :
    lookupPool (insertPool ps k v) k = some v := by
  induction ps with
  | nil => simp [insertPool, lookupPool]
  | cons hd rest ih =>
      obtain ⟨k', v'⟩ := hd
      by_cases h : k' = k
      · simp [insertPool, lookupPool, h]
      · simp [insertPool, lookupPool, h, ih]

theorem runningCount_append (l1 l2 : List UnitStatus) :
    runningCount (l1 ++ l2) = runningCount l1 + runningCount l2 := by
  induction l1 with
  | nil => simp [runningCount]
  | cons u rest ih => simp [runningCount, ih]; omega

/-- Core invariant of the admission gate: along any execution, the
semaphore's available count plus the number of units inside the wrapped
body equals the pool capacity. -/
theorem sem_running_invariant (c : Nat) (s : SemState) (h : Reachable c s) :
    s.sem + runningCount s.units = c := by
  induction h with
  | refl => simp [SemState.init, runningCount]
  | tail _ step ih =>
      cases step with
      | spawn =>
          simp only [runningCount_append] at *
          simp [runningCount] at *
          omega
      | acquire n pre post hn hu =>
          rw [hu, hn] at ih
          simp only [runningCount_append] at *
          simp [runningCount] at *
          omega
      | finishOk pre post hu =>
          rw [hu] at ih
          simp only [runningCount_append] at *
          simp [runningCount] at *
          omega
      | finishFault pre post hu =>
          rw [hu] at ih
          simp only [runningCount_append] at *
          simp [runningCount] at *
          omega

theorem runningCount_eq_zero_of_done (l : List UnitStatus)
    (h : ∀ u ∈ l, u = .doneOk ∨ u = .doneFault) : runningCount l = 0 := by
  induction l with
  | nil => rfl
  | cons u rest ih =>
      have hu := h u (by simp)
      have hrest := ih (fun v hv => h v (by simp [hv]))
      rcases hu with h1 | h1 <;> simp [runningCount, h1, hrest]

/-- Every entry point either leaves `TASKS` untouched or appends exactly
the next spawn index. -/
theorem stepOp_tasks (op : Op) (cfg : Config) :
    (stepOp op cfg).TASKS = cfg.TASKS ∨
    (stepOp op cfg).TASKS = cfg.TASKS ++ [cfg.TASKS.length] := by
  cases op with
  | setMaxThreads t => cases t <;> simp [stepOp, set_max_threads]
  | setEngine k =>
      simp only [stepOp, set_engine]
      split <;> simp
  | getPoolOp n => simp [stepOp]
  | createPoolOp n t e => simp [stepOp, createPool]
  | decorate =>
      simp only [stepOp, taskDecorator]
      split <;> simp [createPool]
  | call =>
      simp only [stepOp, async_method]
      rcases hlk : lookupPool cfg.POOLS cfg.POOL_NAME with _ | p
      · simp
      · simp only []
        split
        · simp
        · split <;> simp
  | listTasks => simp [stepOp]
  | activeTasks a => simp [stepOp]
  | waitForTasks a f =>
      simp only [stepOp, wait_for_tasks]
      rcases hlk : lookupPool cfg.POOLS cfg.POOL_NAME with _ | p
      · simp
      · simp only []
        split
        · simp
        · split <;> simp
  | killallOp => simp [stepOp, killall]

/-- Running any sequence of entry points from the initial state keeps
`TASKS` equal to the list of spawn indices `0, 1, ..., len-1`. -/
theorem runOps_tasks_range (ops : List Op) (cfg : Config)
    (h : cfg.TASKS = List.range cfg.TASKS.length) :
    (runOps ops cfg).TASKS = List.range (runOps ops cfg).TASKS.length := by
  induction ops generalizing cfg with
  | nil => simpa [runOps] using h
  | cons op ops ih =>
      simp only [runOps]
      apply ih
      rcases stepOp_tasks op cfg with h1 | h1
      · rw [h1]; exact h
      · have hsucc : cfg.TASKS ++ [cfg.TASKS.length] = List.range (cfg.TASKS.length + 1) := by
          rw [List.range_succ, ← h]
        rw [h1, hsucc]
        simp

/-- Claim C1: for a pool created with capacity `c >= 2`, the stored
admission gate is a counting semaphore initialized to `c`, and along
any interleaved execution of spawned units (each of which must pass the
`acquire` step of `with pool:` before entering the wrapped body), at
most `c` units are inside the wrapped function's body at any instant. -/
theorem thm_admission_gate_bound (c : Nat) (hc : 2 ≤ c) (name : String)
    (e : Option String) (cfg : Config) :
    (∃ p, lookupPool (createPool name (.given (c : Int)) e cfg).POOLS name = some p ∧
        p.pool = some (c : Int) ∧ p.threads = (c : Int)) ∧
    ∀ s, Reachable c s → runningCount s.units ≤ c := by
  constructor
  · have hge2 : (2 : Int) ≤ (c : Int) := by exact_mod_cast hc
    have hnlt : ¬ ((c : Int) < 2) := by omega
    have hpos : (0 : Int) < (c : Int) := by omega
    simp only [createPool]
    refine ⟨_, lookup_insert_self _ _ _, ?_, ?_⟩
    · have hncast : ¬ c < 2 := by omega
      simp [if_neg hnlt, hpos, hncast]
    · have hncast : ¬ c < 2 := by omega
      simp [if_neg hnlt, hncast]
  · intro s hs
    have := sem_running_invariant c s hs
    omega

/-- Witness for C1 at `c = 2`: the created pool `"w"` carries
`Semaphore(2)`, and in the reachable state with one unit inside the
body the running count is within the bound. -/
theorem witness_admission_gate_bound :
    2 ≤ 2 ∧
    ((∃ p, lookupPool (createPool "w" (.given ((2 : Nat) : Int)) none (initConfig 4)).POOLS "w"
        = some p ∧ p.pool = some ((2 : Nat) : Int) ∧ p.threads = ((2 : Nat) : Int)) ∧
      runningCount (SemState.mk 1 [.running]).units ≤ 2) := by
  have h := thm_admission_gate_bound 2 (by decide) "w" none (initConfig 4)
  have h1 : SemStep (SemState.init 2) { sem := 2, units := [.waiting] } :=
    SemStep.spawn (SemState.init 2)
  have h2 : SemStep { sem := 2, units := [.waiting] } { sem := 1, units := [.running] } :=
    SemStep.acquire _ 1 [] [] rfl rfl
  have hreach : Reachable 2 { sem := 1, units := [.running] } :=
    Relation.ReflTransGen.tail (Relation.ReflTransGen.tail Relation.ReflTransGen.refl h1) h2
  exact ⟨by decide, h.1, h.2 _ hreach⟩

/-- Claim C8: once a unit has gone through its lifecycle, the semaphore
count is fully restored no matter whether each wrapped call returned
normally (`doneOk`) or raised (`doneFault`): in any reachable state in
which every spawned unit has finished, the available count equals the
capacity again. -/
theorem thm_gate_release_all_paths (c : Nat) (s : SemState) (h : Reachable c s)
    (hdone : ∀ u ∈ s.units, u = .doneOk ∨ u = .doneFault) :
    s.sem = c := by
  have hinv := sem_running_invariant c s h
  have hz := runningCount_eq_zero_of_done s.units hdone
  omega

/-- Witness for C8: a unit that raises inside the wrapped body still
releases its slot — the final count equals the capacity 2. -/
theorem witness_gate_release_all_paths :
    Reachable 2 { sem := 2, units := [.doneFault] } ∧
    (SemState.mk 2 [.doneFault]).sem = 2 := by
  have h1 : SemStep (SemState.init 2) { sem := 2, units := [.waiting] } :=
    SemStep.spawn (SemState.init 2)
  have h2 : SemStep { sem := 2, units := [.waiting] } { sem := 1, units := [.running] } :=
    SemStep.acquire _ 1 [] [] rfl rfl
  have h3 : SemStep { sem := 1, units := [.running] } { sem := 2, units := [.doneFault] } :=
    SemStep.finishFault _ [] [] rfl
  have hreach : Reachable 2 { sem := 2, units := [.doneFault] } :=
    Relation.ReflTransGen.tail
      (Relation.ReflTransGen.tail (Relation.ReflTransGen.tail Relation.ReflTransGen.refl h1) h2) h3
  refine ⟨hreach, thm_gate_release_all_paths 2 _ hreach ?_⟩
  intro u hu
  simp only [List.mem_singleton] at hu
  simp [hu]

/-- Claim C2 (code bug): with a capacity-0 active pool, `wait_for_tasks`
takes the early return at line 363 and comes back with `True` while
`KILL_RECEIVED` is still set — the reset at line 398 is skipped, contrary
to the function's own docstring ("then resets it to False when done"). -/
theorem thm_wait_capacity0_flag_not_cleared :
    cfgZero.KILL_RECEIVED = false ∧
    (wait_for_tasks (fun _ _ => false) 1 cfgZero).1 = some (.ok true) ∧
    (wait_for_tasks (fun _ _ => false) 1 cfgZero).2.KILL_RECEIVED = true :=
  ⟨rfl, rfl, rfl⟩

/-- Claim C3 (code bug): `getPool` with an unknown name does not fail.
On a registry holding only `"main"` (the active pool), requesting
`"unknown-name"` returns a snapshot instead of raising, because the
lookups at lines 144 and 151 use the active pool name, never the
requested one — contrary to the docstring "Raises KeyError: If the
specified pool doesn't exist". -/
theorem thm_getPool_unknown_no_error :
    lookupPool cfgZero.POOLS "unknown-name" = none ∧
    getPool (some "unknown-name") cfgZero =
      .ok { engine := "thread", name := "unknown-name", threads := 0 } :=
  ⟨rfl, rfl⟩

/-- Counterexample to claim C4: with pool `"a"` (thread engine,
capacity 0) and active pool `"b"` (process engine, capacity 5),
`getPool "a"` reports `"b"`'s engine and capacity under `"a"`'s name —
not the snapshot of the pool named `"a"`. -/
theorem counter_getPool_named_pool :
    lookupPool cfgTwo.POOLS "a" =
      some { pool := none, engine := .thread, name := "a", threads := 0 } ∧
    getPool (some "a") cfgTwo = .ok { engine := "process", name := "a", threads := 5 } ∧
    getPool (some "a") cfgTwo ≠ .ok { engine := "thread", name := "a", threads := 0 } :=
  ⟨rfl, rfl, fun h => by
    have h2 : (Except.ok { engine := "process", name := "a", threads := 5 } :
        Except PyErr PoolInfo) = .ok { engine := "thread", name := "a", threads := 0 } := h
    injection h2 with h3
    exact absurd h3 (by decide)⟩

/-- Claim C4 as amended: whenever the active pool name resolves,
`getPool` returns the **active** pool's engine label and capacity, with
the `name` field merely echoing the requested name (or the active name
when omitted); with `name` omitted this is exactly the active pool's
snapshot. -/
theorem thm_getPool_active_snapshot (n : Option String) (cfg : Config) (p : PoolConfig)
    (h : lookupPool cfg.POOLS cfg.POOL_NAME = some p) :
    getPool n cfg =
      .ok { engine := engineLabel p.engine
            name := match n with | none => cfg.POOL_NAME | some s => s
            threads := p.threads } := by
  cases hp : p.engine <;> simp [getPool, h, engineLabel, hp]

/-- Witness for C4's amended statement on the two-pool state. -/
theorem witness_getPool_active_snapshot :
    lookupPool cfgTwo.POOLS cfgTwo.POOL_NAME =
      some { pool := some 5, engine := .process, name := "b", threads := 5 } ∧
    getPool (some "a") cfgTwo =
      .ok { engine := engineLabel EngineClass.process, name := "a", threads := 5 } :=
  ⟨rfl, thm_getPool_active_snapshot (some "a") cfgTwo
    { pool := some 5, engine := .process, name := "b", threads := 5 } rfl⟩

/-- Claim C5: a numeric `threads` below 2 yields a stored capacity of 0
with no semaphore; a non-numeric or missing `threads` behaves exactly
like passing the current global default (no error escapes); a numeric
`threads = c >= 2` stores `Semaphore(c)` and capacity `c`. -/
theorem thm_createPool_threads (name : String) (e : Option String) (cfg : Config)
    (n c : Int) (hlt : n < 2) (hge : 2 ≤ c) :
    (∃ p, lookupPool (createPool name (.given n) e cfg).POOLS name = some p ∧
        p.threads = 0 ∧ p.pool = none) ∧
    createPool name .nonNumeric e cfg = createPool name (.given cfg.MAX_THREADS) e cfg ∧
    createPool name .missing e cfg = createPool name (.given cfg.MAX_THREADS) e cfg ∧
    (∃ p, lookupPool (createPool name (.given c) e cfg).POOLS name = some p ∧
        p.pool = some c ∧ p.threads = c) := by
  refine ⟨?_, rfl, rfl, ?_⟩
  · simp only [createPool]
    refine ⟨_, lookup_insert_self _ _ _, ?_, ?_⟩
    · simp [if_pos hlt]
    · simp [if_pos hlt]
  · have hnlt : ¬ (c < 2) := by omega
    have hpos : (0 : Int) < c := by omega
    simp only [createPool]
    refine ⟨_, lookup_insert_self _ _ _, ?_, ?_⟩
    · simp [if_neg hnlt, hpos]
    · simp [if_neg hnlt]

/-- Witness for C5 with `n = 1`, `c = 3` on a fresh state. -/
theorem witness_createPool_threads :
    (1 : Int) < 2 ∧
    ((2 : Int) ≤ 3 ∧
      ((∃ p, lookupPool (createPool "p" (.given 1) none (initConfig 4)).POOLS "p" = some p ∧
          p.threads = 0 ∧ p.pool = none) ∧
        createPool "p" .nonNumeric none (initConfig 4) =
          createPool "p" (.given (initConfig 4).MAX_THREADS) none (initConfig 4) ∧
        createPool "p" .missing none (initConfig 4) =
          createPool "p" (.given (initConfig 4).MAX_THREADS) none (initConfig 4) ∧
        (∃ p, lookupPool (createPool "p" (.given 3) none (initConfig 4)).POOLS "p" = some p ∧
          p.pool = some 3 ∧ p.threads = 3))) :=
  ⟨by decide, by decide, thm_createPool_threads "p" none (initConfig 4) 1 3 (by decide) (by decide)⟩

/-- Claim C6: when the active pool's stored capacity is 0, a call of the
wrapped function runs the callee synchronously in the caller's frame,
returns Python `None` (no handle), creates no unit and leaves the whole
state — in particular the `TASKS` registry — unchanged. -/
theorem thm_sync_call_capacity0 (cfg : Config) (p : PoolConfig)
    (h : lookupPool cfg.POOLS cfg.POOL_NAME = some p) (h0 : p.threads = 0) :
    async_method cfg = (.ok { handle := none, syncCall := true }, cfg) := by
  simp [async_method, h, h0]

/-- Witness for C6 on the capacity-0 pool state. -/
theorem witness_sync_call_capacity0 :
    lookupPool cfgZero.POOLS cfgZero.POOL_NAME =
      some { pool := none, engine := .thread, name := "main", threads := 0 } ∧
    ({ pool := none, engine := .thread, name := "main", threads := 0 } : PoolConfig).threads = 0 ∧
    async_method cfgZero = (.ok { handle := none, syncCall := true }, cfgZero) :=
  ⟨rfl, rfl, thm_sync_call_capacity0 cfgZero
    { pool := none, engine := .thread, name := "main", threads := 0 } rfl rfl⟩

/-- Claim C7: while `KILL_RECEIVED` is set and the active pool's
capacity is positive, a call of the wrapped function spawns nothing:
it returns Python `None`, runs no callee, and leaves the state — in
particular the `TASKS` registry — unchanged. -/
theorem thm_refuse_spawn_shutdown (cfg : Config) (p : PoolConfig)
    (h : lookupPool cfg.POOLS cfg.POOL_NAME = some p) (hpos : 0 < p.threads)
    (hk : cfg.KILL_RECEIVED = true) :
    async_method cfg = (.ok { handle := none, syncCall := false }, cfg) := by
  have hne : ¬ p.threads = 0 := by omega
  simp [async_method, h, hne, hk]

/-- Witness for C7 on a capacity-5 pool during shutdown. -/
theorem witness_refuse_spawn_shutdown :
    lookupPool cfgShutdown.POOLS cfgShutdown.POOL_NAME =
      some { pool := some 5, engine := .thread, name := "q", threads := 5 } ∧
    (0 : Int) < 5 ∧
    cfgShutdown.KILL_RECEIVED = true ∧
    async_method cfgShutdown = (.ok { handle := none, syncCall := false }, cfgShutdown) :=
  ⟨rfl, by decide, rfl, thm_refuse_spawn_shutdown cfgShutdown
    { pool := some 5, engine := .thread, name := "q", threads := 5 } rfl (by decide) rfl⟩

/-- Claim C9: the task registry is append-only (every entry point either
leaves `TASKS` alone or appends one new handle at the end), and along
any sequence of entry-point invocations from the initial state,
`get_list_of_tasks` returns exactly the spawn indices `0, 1, ...` in
creation order, each appearing exactly once. -/
theorem thm_registry_append_only (ops : List Op) (cpu : Nat) :
    (∀ op cfg, ∃ new, (stepOp op cfg).TASKS = cfg.TASKS ++ new) ∧
    get_list_of_tasks (runOps ops (initConfig cpu)) =
      List.range (runOps ops (initConfig cpu)).TASKS.length ∧
    (runOps ops (initConfig cpu)).TASKS.Nodup := by
  have hrange := runOps_tasks_range ops (initConfig cpu) (by simp [initConfig])
  refine ⟨?_, hrange, ?_⟩
  · intro op cfg
    rcases stepOp_tasks op cfg with h | h
    · exact ⟨[], by simp [h]⟩
    · exact ⟨[cfg.TASKS.length], h⟩
  · rw [hrange]
    exact List.nodup_range _

/-- Claim C10: in the initial state no pool exists and the active-pool
name is `"Main"` (which differs from `createPool`'s default `"main"`),
so `wait_for_tasks` and `get_pool` with the name omitted both raise
`KeyError` from the active-pool lookup instead of returning a value. -/
theorem thm_initial_state_keyerror (cpu : Nat) (aliveAt : Nat → Nat → Bool) (fuel : Nat) :
    (initConfig cpu).POOLS = [] ∧
    (initConfig cpu).POOL_NAME = "Main" ∧
    (initConfig cpu).POOL_NAME ≠ "main" ∧
    getPool none (initConfig cpu) = .error (.keyError "Main") ∧
    (wait_for_tasks aliveAt fuel (initConfig cpu)).1 = some (.error (.keyError "Main")) :=
  ⟨rfl, rfl, fun h => absurd (rfl.trans h : "Main" = "main") (by decide), rfl, rfl⟩
